import Mathlib

/-!
# Session lifecycle of the GroVELLOWS client — a shallow embedding

This file embeds the authentication/session layer of the repository:

* `contexts/AuthContext.tsx` (source file `unnamed/part_000`): the provider
  holding the in-memory `token`/`user`/`loading` React state, backed by the
  durable key-value store `AsyncStorage` under the two keys `'token'` and
  `'user'`, with the operations `loadStoredAuth`, `logout`, `updateUser`
  (exported as `setUser`) and `updateToken` (exported as `setToken`).
* `app/(auth)/login.tsx`: the login screen handlers `handleLogin`,
  `handleMfaVerify`, `handleCancelMfa`, holding the screen-local MFA state
  (`showMfaModal`, `mfaCode`, `pendingEmail`, `pendingPassword`).
* `app/(tabs)/profile.tsx`: the `handleLogout` handler (best-effort
  `POST /auth/logout`, failures ignored, then the provider's `logout`).

Modelling conventions:

* The server's `AsyncStorage` values for the `'user'` key are produced by
  `JSON.stringify` and read back through `JSON.parse`; this library
  round-trip is modelled as the identity, so the store holds `Option User`
  directly.  A stringified user object is never the empty string, so it is
  always truthy in JavaScript.
* JavaScript string truthiness (`if (s)`) is `jsTruthy`: `null`/`undefined`
  and the empty string are falsy, every other string is truthy.
* Network responses are oracle inputs: each handler that performs a request
  takes the server's answer (`LoginResult`) as an argument.  An axios error
  carries `error.response?.data?.detail` (`Option String`) and
  `error.message` (a plain string).
* `Alert.alert(title, msg)` and `router.replace(...)` are modelled as the
  handler's `Outcome`.  Translation keys (`t('errors.loginFailed')` etc.)
  are kept as their literal key strings.
-/

set_option autoImplicit false

namespace GroVSession

/-- The `User` record of `AuthContext` (id, email, name, role, optional
LinkedIn URL, notification preferences).  The preferences field is a dynamic
JSON object of boolean flags in the source; it is modelled as an association
list of flags. -/
structure User where
  id : String
  email : String
  name : String
  role : String
  linkedin_url : Option String
  notification_preferences : List (String × Bool)
deriving DecidableEq, Repr

/-- The durable key-value store (`AsyncStorage`) restricted to the two
logical keys the session layer uses: `'token'` and `'user'`.  `none` means
the key is absent. -/
structure Store where
  token : Option String
  user : Option User
deriving DecidableEq, Repr

/-- The in-memory React state of `AuthContext`: the `token`, `user` and
`loading` `useState` cells. -/
structure Mem where
  token : Option String
  user : Option User
  loading : Bool
deriving DecidableEq, Repr

/-- The combined observable state: the durable store, the provider memory,
and the login screen's MFA-related `useState` cells. -/
structure AppState where
  store : Store
  mem : Mem
  showMfaModal : Bool
  mfaCode : String
  pendingEmail : String
  pendingPassword : String
  loading : Bool
  mfaLoading : Bool
deriving DecidableEq, Repr

/-- A successful `POST /auth/login` response body:
`{ mfa_required?, access_token?, user? }`. -/
structure LoginData where
  mfa_required : Bool
  access_token : Option String
  user : Option User
deriving DecidableEq, Repr

/-- The outcome of a `POST /auth/login` request: either a response body, or
an axios error carrying the optional server detail
(`error.response?.data?.detail`) and the error's own message
(`error.message`). -/
inductive LoginResult where
  | success (data : LoginData)
  | failure (detail : Option String) (errMessage : String)
deriving DecidableEq, Repr

/-- The externally visible effect of one handler invocation: navigation to
the tabs screen, navigation back to the login screen, opening the MFA modal
(the "second factor required" surface), an `Alert.alert(title, message)`,
or no visible effect. -/
inductive Outcome where
  | navigated
  | navigatedLogin
  | mfaPrompt
  | alertError (title message : String)
  | noop
deriving DecidableEq, Repr

/-- The spec's session status, read off the code's observables: the code
has no status field, so `Authenticated` is "a truthy token is in memory",
`AwaitingSecondFactor` is "the MFA modal is up", and everything else is
`Unauthenticated`. -/
inductive Status where
  | Unauthenticated
  | AwaitingSecondFactor
  | Authenticated
deriving DecidableEq, Repr

/-- JavaScript truthiness of a nullable string: `null`/`undefined` and
`""` are falsy. -/
def jsTruthy : Option String → Bool
  | none => false
  | some s => !s.isEmpty

/-- JavaScript `a || b` for a nullable string with a string default. -/
def jsOr (a : Option String) (b : String) : String :=
  match a with
  | none => b
  | some s => if s.isEmpty then b else s

/-- The spec's status refinement map over the code state (see `Status`). -/
def sessionStatus (s : AppState) : Status :=
  if jsTruthy s.mem.token then .Authenticated
  else if s.showMfaModal then .AwaitingSecondFactor
  else .Unauthenticated

/-- `loadStoredAuth` (part_000, lines 39–53): read both keys; only when
`storedToken && storedUser` is truthy, set both memory cells; in all cases
end with `loading := false`.  (A stored stringified user is always truthy,
so its JS check reduces to key presence.) -/
def loadStoredAuth (st : Store) (m : Mem) : Mem :=
  if jsTruthy st.token && st.user.isSome then
    { m with token := st.token, user := st.user, loading := false }
  else
    { m with loading := false }

/-- `updateToken` (part_000, lines 111–118), exported as `setToken`: a
truthy new token is written to the store, otherwise the `'token'` key is
removed; the memory cell is set to the argument either way. -/
def updateToken (st : Store) (m : Mem) (newToken : Option String) :
    Store × Mem :=
  (if jsTruthy newToken then { st with token := newToken }
   else { st with token := none },
   { m with token := newToken })

/-- `updateUser` (part_000, lines 102–109), exported as `setUser`: a
non-null new user is stringified into the store, otherwise the `'user'` key
is removed; the memory cell is set to the argument either way. -/
def updateUser (st : Store) (m : Mem) (newUser : Option User) :
    Store × Mem :=
  (if newUser.isSome then { st with user := newUser }
   else { st with user := none },
   { m with user := newUser })

/-- `logout` of the provider (part_000, lines 95–100): remove both keys,
null both memory cells. -/
def authLogout (st : Store) (m : Mem) : Store × Mem :=
  ({ st with token := none, user := none },
   { m with token := none, user := none })

/-- `updateToken` lifted to the combined state. -/
def appUpdateToken (s : AppState) (newToken : Option String) : AppState :=
  { s with
    store := (updateToken s.store s.mem newToken).1,
    mem := (updateToken s.store s.mem newToken).2 }

/-- `updateUser` lifted to the combined state. -/
def appUpdateUser (s : AppState) (newUser : Option User) : AppState :=
  { s with
    store := (updateUser s.store s.mem newUser).1,
    mem := (updateUser s.store s.mem newUser).2 }

/-- `handleLogin` (login.tsx, lines 38–72).  Empty fields alert and return
before any request.  An error response alerts
`t('errors.loginFailed')` with `detail || error.message || 'Login failed'`.
`mfa_required` stashes the submitted credentials in the pending cells,
opens the MFA modal and returns (the distinguishable second-factor
surface).  Otherwise a truthy `access_token` is committed through
`setToken` then `setUser` and the router navigates to the tabs.  The
screen spinner is `false` again once the handler settles (`finally`). -/
def handleLogin (s : AppState) (email password : String)
    (resp : LoginResult) : AppState × Outcome :=
  if email.isEmpty || password.isEmpty then
    (s, .alertError "common.error" "errors.fillAllFields")
  else
    match resp with
    | .failure detail errMessage =>
        ({ s with loading := false },
         .alertError "errors.loginFailed"
           (jsOr detail (jsOr (some errMessage) "Login failed")))
    | .success data =>
        if data.mfa_required then
          ({ s with pendingEmail := email, pendingPassword := password,
                    showMfaModal := true, loading := false },
           .mfaPrompt)
        else if jsTruthy data.access_token then
          ({ appUpdateUser (appUpdateToken s data.access_token) data.user
              with loading := false },
           .navigated)
        else
          ({ s with loading := false }, .noop)

/-- `handleMfaVerify` (login.tsx, lines 74–103).  A code that is not six
characters alerts and changes nothing.  Otherwise the held
`pendingEmail`/`pendingPassword` plus the code are resubmitted; a rejected
response alerts `'Verification Failed'` with `detail || 'Invalid MFA
code'`; a truthy `access_token` is committed through `setToken` then
`setUser`, the modal closes, the code field is cleared, and the router
navigates.  The pending credential cells are not touched on success. -/
def handleMfaVerify (s : AppState) (resp : LoginResult) :
    AppState × Outcome :=
  if s.mfaCode.length ≠ 6 then
    (s, .alertError "Error" "Please enter a valid 6-digit code")
  else
    match resp with
    | .failure detail _ =>
        ({ s with mfaLoading := false },
         .alertError "Verification Failed" (jsOr detail "Invalid MFA code"))
    | .success data =>
        if jsTruthy data.access_token then
          ({ appUpdateUser (appUpdateToken s data.access_token) data.user
              with showMfaModal := false, mfaCode := "",
                   mfaLoading := false },
           .navigated)
        else
          ({ s with mfaLoading := false }, .noop)

/-- `handleCancelMfa` (login.tsx, lines 105–110): close the modal and clear
the code and both pending credential cells; memory and store untouched. -/
def handleCancelMfa (s : AppState) : AppState :=
  { s with showMfaModal := false, mfaCode := "",
           pendingEmail := "", pendingPassword := "" }

/-- `handleLogout` (profile.tsx, lines 173–190), confirmed branch: the
best-effort `POST /auth/logout` result is swallowed by `try/catch`
(`serverOk` is deliberately unused), then the provider's `logout` clears
memory and store and the router returns to the login screen. -/
def handleLogout (s : AppState) (_serverOk : Bool) : AppState × Outcome :=
  ({ s with
     store := (authLogout s.store s.mem).1,
     mem := (authLogout s.store s.mem).2 },
   .navigatedLogin)

/-- One public operation of the session layer, with the oracle inputs
(server responses, typed MFA code) it consumes. -/
inductive Op where
  | restore
  | login (email password : String) (resp : LoginResult)
  | verify (code : String) (resp : LoginResult)
  | cancel
  | logout (serverOk : Bool)
  | updUser (newUser : Option User)
  | updToken (newToken : Option String)
deriving DecidableEq, Repr

/-- The state transition of one operation (`verify` models typing `code`
into the modal's field and pressing Verify). -/
def step (s : AppState) : Op → AppState
  | .restore => { s with mem := loadStoredAuth s.store s.mem }
  | .login email password resp => (handleLogin s email password resp).1
  | .verify code resp => (handleMfaVerify { s with mfaCode := code } resp).1
  | .cancel => handleCancelMfa s
  | .logout serverOk => (handleLogout s serverOk).1
  | .updUser u => appUpdateUser s u
  | .updToken t => appUpdateToken s t

/-- Run a sequence of operations. -/
def run (s : AppState) (ops : List Op) : AppState :=
  ops.foldl step s

/-- Process start: nothing stored, nothing in memory, provider `loading`
true, modal closed, all screen fields empty. -/
def initState : AppState :=
  { store := { token := none, user := none },
    mem := { token := none, user := none, loading := true },
    showMfaModal := false, mfaCode := "",
    pendingEmail := "", pendingPassword := "",
    loading := false, mfaLoading := false }

/-- A concrete profile used in counterexamples and witnesses. -/
def sampleUser : User :=
  { id := "u1", email := "a@x.com", name := "Alice", role := "user",
    linkedin_url := none, notification_preferences := [] }

/-- The in-memory pairing invariant: a (truthy) token is in memory exactly
when a user profile is. -/
@[reducible] def memInv (s : AppState) : Prop :=
  jsTruthy s.mem.token = s.mem.user.isSome

/-- The observable-instant invariant of the spec: token present iff user
present iff the (derived) status is `Authenticated`. -/
@[reducible] def obsInv (s : AppState) : Prop :=
  memInv s ∧ (sessionStatus s = .Authenticated ↔ jsTruthy s.mem.token = true)

/-- The durable pairing invariant: the store holds the `'token'` key
exactly when it holds the `'user'` key. -/
@[reducible] def storeInv (s : AppState) : Prop :=
  s.store.token.isSome = s.store.user.isSome

/-- A login response is well formed per the external contract (§6 of the
spec): when it grants a usable (truthy) `access_token` it also carries the
`user` record. -/
def wfRespB : LoginResult → Bool
  | .success data => !jsTruthy data.access_token || data.user.isSome
  | .failure _ _ => true

/-- The composite session operations: everything except the single-field
setters `updUser`/`updToken`, with well-formed server responses. -/
def coreOpB : Op → Bool
  | .restore => true
  | .login _ _ resp => wfRespB resp
  | .verify _ resp => wfRespB resp
  | .cancel => true
  | .logout _ => true
  | .updUser _ => false
  | .updToken _ => false

lemma jsTruthy_isSome {o : Option String} (h : jsTruthy o = true) :
    o.isSome = true := by
  cases o with
  | none => simp [jsTruthy] at h
  | some s => rfl

lemma sessionStatus_authenticated (s : AppState) :
    sessionStatus s = .Authenticated ↔ jsTruthy s.mem.token = true := by
  unfold sessionStatus
  by_cases h : jsTruthy s.mem.token = true
  · simp [h]
  · simp only [h, if_false, Bool.not_eq_true] at *
    simp [h]
    split <;> simp

lemma wfResp_user {data : LoginData}
    (hc : wfRespB (.success data) = true)
    (ht : jsTruthy data.access_token = true) : data.user.isSome = true := by
  simp only [wfRespB, Bool.or_eq_true, Bool.not_eq_true'] at hc
  rcases hc with hc | hc
  · rw [hc] at ht; cases ht
  · exact hc

lemma memInv_step (s : AppState) (op : Op) (hc : coreOpB op = true)
    (h : memInv s) : memInv (step s op) := by
  cases op with
  | restore =>
      simp only [step, memInv, loadStoredAuth] at *
      split
      · rename_i hcond
        simp only [Bool.and_eq_true] at hcond
        simp [hcond.1, hcond.2]
      · exact h
  | login email password resp =>
      by_cases hg : (email.isEmpty || password.isEmpty) = true
      · simpa [step, handleLogin, hg] using h
      · cases resp with
        | failure detail errMessage =>
            simpa [step, handleLogin, hg] using h
        | success data =>
            by_cases hm : data.mfa_required = true
            · simpa [step, handleLogin, hg, hm, memInv] using h
            · by_cases ht : jsTruthy data.access_token = true
              · have hu : data.user.isSome = true := wfResp_user hc ht
                simp [step, handleLogin, hg, hm, ht, memInv,
                  appUpdateUser, appUpdateToken, updateUser, updateToken,
                  hu]
              · simpa [step, handleLogin, hg, hm, ht, memInv] using h
  | verify code resp =>
      by_cases hg : code.length = 6
      · cases resp with
        | failure detail errMessage =>
            simpa [step, handleMfaVerify, hg] using h
        | success data =>
            by_cases ht : jsTruthy data.access_token = true
            · have hu : data.user.isSome = true := wfResp_user hc ht
              simp [step, handleMfaVerify, hg, ht, memInv,
                appUpdateUser, appUpdateToken, updateUser, updateToken, hu]
            · simpa [step, handleMfaVerify, hg, ht, memInv] using h
      · simpa [step, handleMfaVerify, hg] using h
  | cancel => exact h
  | logout serverOk =>
      simp [step, handleLogout, authLogout, memInv, jsTruthy]
  | updUser u => simp [coreOpB] at hc
  | updToken t => simp [coreOpB] at hc

lemma storeInv_step (s : AppState) (op : Op) (hc : coreOpB op = true)
    (h : storeInv s) : storeInv (step s op) := by
  cases op with
  | restore => exact h
  | login email password resp =>
      by_cases hg : (email.isEmpty || password.isEmpty) = true
      · simpa [step, handleLogin, hg] using h
      · cases resp with
        | failure detail errMessage =>
            simpa [step, handleLogin, hg] using h
        | success data =>
            by_cases hm : data.mfa_required = true
            · simpa [step, handleLogin, hg, hm, storeInv] using h
            · by_cases ht : jsTruthy data.access_token = true
              · have hu : data.user.isSome = true := wfResp_user hc ht
                simp [step, handleLogin, hg, hm, ht, storeInv,
                  appUpdateUser, appUpdateToken, updateUser, updateToken,
                  hu, jsTruthy_isSome ht]
              · simpa [step, handleLogin, hg, hm, ht, storeInv] using h
  | verify code resp =>
      by_cases hg : code.length = 6
      · cases resp with
        | failure detail errMessage =>
            simpa [step, handleMfaVerify, hg] using h
        | success data =>
            by_cases ht : jsTruthy data.access_token = true
            · have hu : data.user.isSome = true := wfResp_user hc ht
              simp [step, handleMfaVerify, hg, ht, storeInv,
                appUpdateUser, appUpdateToken, updateUser, updateToken,
                hu, jsTruthy_isSome ht]
            · simpa [step, handleMfaVerify, hg, ht, storeInv] using h
      · simpa [step, handleMfaVerify, hg] using h
  | cancel => exact h
  | logout serverOk => simp [step, handleLogout, authLogout, storeInv]
  | updUser u => simp [coreOpB] at hc
  | updToken t => simp [coreOpB] at hc

lemma run_preserves (P : AppState → Prop)
    (hstep : ∀ s op, coreOpB op = true → P s → P (step s op)) :
    ∀ (ops : List Op) (s : AppState),
      (∀ op ∈ ops, coreOpB op = true) → P s → P (run s ops) := by
  intro ops
  induction ops with
  | nil => intro s _ h; exact h
  | cons op rest ih =>
      intro s hall h
      have h1 : P (step s op) :=
        hstep s op (hall op (List.mem_cons_self op rest)) h
      have hrest : ∀ o ∈ rest, coreOpB o = true := by
        intro o ho; exact hall o (List.mem_cons_of_mem op ho)
      exact ih (step s op) hrest h1

/-- Claim C1, counterexample.  The claim quantifies over sequences of all
seven public operations; the one-step sequence `updateToken("T")` from the
initial state leaves a token in memory with no user profile, so the derived
status is `Authenticated` while the user is absent and the claimed
present-iff-present-iff-Authenticated equivalence fails. -/
theorem C1_atomicity_cex :
    sessionStatus (run initState [Op.updToken (some "T")]) =
        Status.Authenticated ∧
    (run initState [Op.updToken (some "T")]).mem.user = none ∧
    ¬ obsInv (run initState [Op.updToken (some "T")]) := by
  decide

/-- Claim C1, amended.  For every sequence of the composite operations
(restore, login, verifySecondFactor, cancelSecondFactor, logout) with
well-formed server responses, at every operation boundary the in-memory
token is present iff the user profile is present iff the derived status is
`Authenticated`.  The single-field setters `updateUser`/`updateToken` each
write only their own field, so they preserve the equivalence only when the
other half is already present: `updateUser` with a profile under a truthy
in-memory token, and `updateToken` with a non-empty token under a present
user profile. -/
theorem C1_atomicity_amended :
    (∀ ops : List Op, (∀ op ∈ ops, coreOpB op = true) →
        obsInv (run initState ops)) ∧
    (∀ (s : AppState) (u : User), memInv s →
        jsTruthy s.mem.token = true → memInv (appUpdateUser s (some u))) ∧
    (∀ (s : AppState) (t : String), memInv s →
        s.mem.user.isSome = true → t.isEmpty = false →
        memInv (appUpdateToken s (some t))) := by
  refine ⟨?_, ?_, ?_⟩
  · intro ops hall
    have hbase : obsInv initState :=
      ⟨rfl, sessionStatus_authenticated initState⟩
    exact run_preserves obsInv
      (fun s op hc h => ⟨memInv_step s op hc h.1,
        sessionStatus_authenticated (step s op)⟩)
      ops initState hall hbase
  · intro s u _ ht
    simp [memInv, appUpdateUser, updateUser, ht]
  · intro s t _ hu he
    simp [memInv, appUpdateToken, updateToken, jsTruthy, he, hu]

/-- Claim C1, witness: a concrete direct-login-then-logout run keeps the
observable invariant. -/
theorem C1_atomicity_witness :
    obsInv (run initState
      [Op.login "a@x.com" "pw"
        (LoginResult.success ⟨false, some "T", some sampleUser⟩),
       Op.logout true]) :=
  C1_atomicity_amended.1 _ (by decide)

/-- Claim C2, counterexample.  The claim covers every operation including
`updateUser`; calling `updateUser` with a profile while the store is empty
writes the `'user'` key with no `'token'` key, so the store holds a user
without a matching token. -/
theorem C2_store_pairing_cex :
    (run initState [Op.updUser (some sampleUser)]).store.user =
        some sampleUser ∧
    (run initState [Op.updUser (some sampleUser)]).store.token = none ∧
    ¬ storeInv (run initState [Op.updUser (some sampleUser)]) := by
  decide

/-- Claim C2, amended.  After every sequence of the composite operations
(restore, login, verifySecondFactor, cancelSecondFactor, logout) with
well-formed server responses, the durable store holds both keys or
neither.  The single-field setters preserve the pairing only when called
with a non-null value (for the token: non-empty) while the other key is
already present; called with null, or while the other key is absent, they
can leave a single key behind. -/
theorem C2_store_pairing_amended :
    (∀ ops : List Op, (∀ op ∈ ops, coreOpB op = true) →
        storeInv (run initState ops)) ∧
    (∀ (s : AppState) (u : User), storeInv s →
        s.store.token.isSome = true →
        storeInv (appUpdateUser s (some u))) ∧
    (∀ (s : AppState) (t : String), storeInv s →
        s.store.user.isSome = true → t.isEmpty = false →
        storeInv (appUpdateToken s (some t))) := by
  refine ⟨?_, ?_, ?_⟩
  · intro ops hall
    exact run_preserves storeInv (fun s op hc h => storeInv_step s op hc h)
      ops initState hall rfl
  · intro s u _ ht
    simp [storeInv, appUpdateUser, updateUser, ht]
  · intro s t _ hu he
    simp [storeInv, appUpdateToken, updateToken, jsTruthy, he, hu]

/-- Claim C2, witness: a concrete MFA login run (challenge, verify, logout)
keeps the durable pairing invariant. -/
theorem C2_store_pairing_witness :
    storeInv (run initState
      [Op.login "a@x.com" "secret" (LoginResult.success ⟨true, none, none⟩),
       Op.verify "123456"
         (LoginResult.success ⟨false, some "T", some sampleUser⟩),
       Op.logout false]) :=
  C2_store_pairing_amended.1 _ (by decide)

/-- Claim C3, counterexample.  The MFA verify handler performs no state
check and the codebase defines no `InvalidState` error: invoked in a state
whose status is `Unauthenticated` (modal closed) with a six-digit code and
a server response that accepts the resubmitted pending credentials, it
does not fail — it sets the in-memory token, mutating token/user. -/
theorem C3_mfa_gating_cex :
    sessionStatus { initState with mfaCode := "123456" } ≠
        Status.AwaitingSecondFactor ∧
    initState.mem.token = none ∧
    (handleMfaVerify { initState with mfaCode := "123456" }
        (LoginResult.success ⟨false, some "T", some sampleUser⟩)).1.mem.token
      = some "T" := by
  decide

/-- Claim C3, amended.  `verifySecondFactor` does not check the session
state and the code defines no `InvalidState` error; called while the
status is not `AwaitingSecondFactor` (exactly as in any other state), a
rejected server response leaves memory, store and status unchanged and
surfaces the failure as a `'Verification Failed'` alert carrying
`detail || 'Invalid MFA code'`; only a response granting a token mutates
token/user. -/
theorem C3_mfa_gating_amended :
    ∀ (s : AppState) (detail : Option String) (errMessage : String),
      sessionStatus s ≠ Status.AwaitingSecondFactor →
      s.mfaCode.length = 6 →
      (handleMfaVerify s (.failure detail errMessage)).1.mem = s.mem ∧
      (handleMfaVerify s (.failure detail errMessage)).1.store = s.store ∧
      sessionStatus (handleMfaVerify s (.failure detail errMessage)).1 =
        sessionStatus s ∧
      (handleMfaVerify s (.failure detail errMessage)).2 =
        Outcome.alertError "Verification Failed"
          (jsOr detail "Invalid MFA code") := by
  intro s detail errMessage _ hg
  refine ⟨?_, ?_, ?_, ?_⟩ <;>
    simp [handleMfaVerify, hg, sessionStatus]

/-- Claim C3, witness: the amended statement at a concrete unauthenticated
state with a rejected response. -/
theorem C3_mfa_gating_witness :
    (handleMfaVerify { initState with mfaCode := "654321" }
        (.failure (some "Invalid MFA code") "")).1.mem =
      initState.mem ∧
    (handleMfaVerify { initState with mfaCode := "654321" }
        (.failure (some "Invalid MFA code") "")).2 =
      Outcome.alertError "Verification Failed" "Invalid MFA code" := by
  have h := C3_mfa_gating_amended { initState with mfaCode := "654321" }
    (some "Invalid MFA code") "" (by decide) (by decide)
  exact ⟨h.1, by rw [h.2.2.2]; decide⟩

/-- Claim C4.  A login whose response says `mfa_required`, submitted from
an unauthenticated session with non-empty fields, stashes the email and
password in the pending cells, opens the MFA modal (status
`AwaitingSecondFactor`) with no token or user set, and yields the
distinguishable MFA prompt rather than an error alert. -/
theorem C4_mfa_required_flow :
    ∀ (s : AppState) (email password : String) (data : LoginData),
      email.isEmpty = false → password.isEmpty = false →
      data.mfa_required = true →
      s.mem.token = none → s.mem.user = none →
      (handleLogin s email password (.success data)).1.pendingEmail = email ∧
      (handleLogin s email password (.success data)).1.pendingPassword =
        password ∧
      (handleLogin s email password (.success data)).1.showMfaModal = true ∧
      (handleLogin s email password (.success data)).1.mem.token = none ∧
      (handleLogin s email password (.success data)).1.mem.user = none ∧
      sessionStatus (handleLogin s email password (.success data)).1 =
        Status.AwaitingSecondFactor ∧
      (handleLogin s email password (.success data)).2 =
        Outcome.mfaPrompt := by
  intro s email password data he hp hm htok huser
  refine ⟨?_, ?_, ?_, ?_, ?_, ?_, ?_⟩ <;>
    simp [handleLogin, he, hp, hm, htok, huser, sessionStatus, jsTruthy]

/-- Claim C4, witness. -/
theorem C4_mfa_required_witness :
    (handleLogin initState "a@x.com" "secret"
        (.success ⟨true, none, none⟩)).1.pendingPassword = "secret" ∧
    sessionStatus (handleLogin initState "a@x.com" "secret"
        (.success ⟨true, none, none⟩)).1 = Status.AwaitingSecondFactor :=
  have h := C4_mfa_required_flow initState "a@x.com" "secret"
    ⟨true, none, none⟩ (by decide) (by decide) rfl rfl rfl
  ⟨h.2.1, h.2.2.2.2.2.1⟩

/-- Claim C5.  A login rejected by the server (error response) leaves
memory, store, the modal and hence the status untouched — an
unauthenticated session stays unauthenticated with no token or user — and
surfaces the failure as the `t('errors.loginFailed')` alert whose message
is the server-supplied `detail` when that is truthy, else the transport
error's own message, else the generic `'Login failed'`. -/
theorem C5_login_rejected :
    ∀ (s : AppState) (email password : String) (detail : Option String)
      (errMessage : String),
      email.isEmpty = false → password.isEmpty = false →
      (handleLogin s email password (.failure detail errMessage)).1.mem =
        s.mem ∧
      (handleLogin s email password (.failure detail errMessage)).1.store =
        s.store ∧
      sessionStatus
          (handleLogin s email password (.failure detail errMessage)).1 =
        sessionStatus s ∧
      (handleLogin s email password (.failure detail errMessage)).2 =
        Outcome.alertError "errors.loginFailed"
          (jsOr detail (jsOr (some errMessage) "Login failed")) ∧
      (jsTruthy detail = true →
        jsOr detail (jsOr (some errMessage) "Login failed") =
          detail.getD "") := by
  intro s email password detail errMessage he hp
  refine ⟨?_, ?_, ?_, ?_, ?_⟩
  · simp [handleLogin, he, hp]
  · simp [handleLogin, he, hp]
  · simp [handleLogin, he, hp, sessionStatus]
  · simp [handleLogin, he, hp]
  · intro hd
    cases detail with
    | none => simp [jsTruthy] at hd
    | some d =>
        simp [jsTruthy] at hd
        simp [jsOr, hd]

/-- Claim C5, witness: a 401 with a server detail from the initial
(unauthenticated) state. -/
theorem C5_login_rejected_witness :
    (handleLogin initState "a@x.com" "wrong"
        (.failure (some "Incorrect email or password")
          "Request failed with status code 401")).1.mem =
      initState.mem ∧
    (handleLogin initState "a@x.com" "wrong"
        (.failure (some "Incorrect email or password")
          "Request failed with status code 401")).2 =
      Outcome.alertError "errors.loginFailed"
        "Incorrect email or password" := by
  have h := C5_login_rejected initState "a@x.com" "wrong"
    (some "Incorrect email or password")
    "Request failed with status code 401" (by decide) (by decide)
  exact ⟨h.1, by rw [h.2.2.2.1]; decide⟩

/-- Claim C6.  From every starting state, and whether or not the
best-effort server notification succeeds (both outcomes of the swallowed
`POST /auth/logout` are quantified), logout clears the in-memory token and
user, removes both keys from the store, and is idempotent: a second logout
leaves the state exactly as the first did.  The derived status is
`Unauthenticated` (the modal flag belongs to the login screen, which is
not mounted where logout is offered). -/
theorem C6_logout_idempotent :
    ∀ (s : AppState) (ok1 ok2 : Bool),
      (handleLogout s ok1).1.mem.token = none ∧
      (handleLogout s ok1).1.mem.user = none ∧
      (handleLogout s ok1).1.store.token = none ∧
      (handleLogout s ok1).1.store.user = none ∧
      (handleLogout (handleLogout s ok1).1 ok2).1 = (handleLogout s ok1).1 ∧
      (s.showMfaModal = false →
        sessionStatus (handleLogout s ok1).1 = Status.Unauthenticated) := by
  intro s ok1 ok2
  refine ⟨rfl, rfl, rfl, rfl, rfl, ?_⟩
  intro hmodal
  simp [handleLogout, authLogout, sessionStatus, jsTruthy, hmodal]

/-- Claim C6, witness: logging out of a freshly authenticated session while
the server notification fails. -/
theorem C6_logout_witness :
    (handleLogout (run initState
        [Op.login "a@x.com" "pw"
          (LoginResult.success ⟨false, some "T", some sampleUser⟩)])
        false).1.store.token = none ∧
    sessionStatus (handleLogout (run initState
        [Op.login "a@x.com" "pw"
          (LoginResult.success ⟨false, some "T", some sampleUser⟩)])
        false).1 = Status.Unauthenticated :=
  have h := C6_logout_idempotent (run initState
    [Op.login "a@x.com" "pw"
      (LoginResult.success ⟨false, some "T", some sampleUser⟩)])
    false true
  ⟨h.2.2.1, h.2.2.2.2.2 (by decide)⟩

/-- Claim C7, code evaluation at the failing input.  Running the MFA flow
to success — `login` answered `mfa_required`, then `verify` with a correct
code answered with a token — reaches `Authenticated`, yet the login
screen's pending cells still hold the plaintext password and email: the
success path clears only the code field and the modal, unlike
`handleCancelMfa`, which does erase both pending cells. -/
theorem C7_pending_password_retained :
    sessionStatus (run initState
        [Op.login "a@x.com" "secret" (.success ⟨true, none, none⟩),
         Op.verify "123456"
           (.success ⟨false, some "T", some sampleUser⟩)]) =
      Status.Authenticated ∧
    (run initState
        [Op.login "a@x.com" "secret" (.success ⟨true, none, none⟩),
         Op.verify "123456"
           (.success ⟨false, some "T", some sampleUser⟩)]).pendingPassword =
      "secret" ∧
    (run initState
        [Op.login "a@x.com" "secret" (.success ⟨true, none, none⟩),
         Op.verify "123456"
           (.success ⟨false, some "T", some sampleUser⟩)]).pendingEmail =
      "a@x.com" ∧
    (handleCancelMfa (run initState
        [Op.login "a@x.com" "secret"
           (.success ⟨true, none, none⟩)])).pendingPassword = "" := by
  decide

/-- Claim C8.  Persisting a session through a successful direct login and
then restoring in a fresh process (initial memory) yields exactly the
persisted token and user; `loadStoredAuth` consumes only the store — it
takes no server response, so no network call is involved. -/
theorem C8_round_trip :
    ∀ (s : AppState) (email password t : String) (u : User),
      email.isEmpty = false → password.isEmpty = false →
      t.isEmpty = false →
      (handleLogin s email password
          (.success ⟨false, some t, some u⟩)).1.store.token = some t ∧
      (handleLogin s email password
          (.success ⟨false, some t, some u⟩)).1.store.user = some u ∧
      loadStoredAuth
          (handleLogin s email password
            (.success ⟨false, some t, some u⟩)).1.store initState.mem =
        { token := some t, user := some u, loading := false } := by
  intro s email password t u he hp ht
  refine ⟨?_, ?_, ?_⟩ <;>
    simp [handleLogin, he, hp, ht, appUpdateUser, appUpdateToken,
      updateUser, updateToken, jsTruthy, loadStoredAuth, initState]

/-- Claim C8, witness. -/
theorem C8_round_trip_witness :
    loadStoredAuth
        (handleLogin initState "a@x.com" "pw"
          (.success ⟨false, some "T", some sampleUser⟩)).1.store
        initState.mem =
      { token := some "T", user := some sampleUser, loading := false } :=
  (C8_round_trip initState "a@x.com" "pw" "T" sampleUser
    (by decide) (by decide) (by decide)).2.2

/-- Claim C9, counterexample.  `updateToken` accepts `null` (the exported
signature is `string | null`); from an authenticated session,
`updateToken(null)` removes the token from store and memory, and the
status leaves `Authenticated` for `Unauthenticated` — refuting "they never
move the session out of Authenticated" as a statement about every
argument. -/
theorem C9_update_frame_cex :
    sessionStatus (run initState
        [Op.login "a@x.com" "pw"
           (.success ⟨false, some "T", some sampleUser⟩)]) =
      Status.Authenticated ∧
    sessionStatus (run initState
        [Op.login "a@x.com" "pw"
           (.success ⟨false, some "T", some sampleUser⟩),
         Op.updToken none]) = Status.Unauthenticated := by
  decide

/-- Claim C9, amended.  From every authenticated session satisfying the
memory pairing invariant, `updateUser` with a (non-null) profile and
`updateToken` with a (non-null, non-empty) token update the store and the
in-memory cell in the same step, preserve the pairing invariant, and leave
the status `Authenticated`; a `null` argument instead clears that field
(for the token, leaving `Authenticated`). -/
theorem C9_update_frame_amended :
    ∀ (s : AppState) (u : User) (t : String),
      sessionStatus s = Status.Authenticated → memInv s →
      t.isEmpty = false →
      (appUpdateUser s (some u)).store.user = some u ∧
      (appUpdateUser s (some u)).mem.user = some u ∧
      sessionStatus (appUpdateUser s (some u)) = Status.Authenticated ∧
      memInv (appUpdateUser s (some u)) ∧
      (appUpdateToken s (some t)).store.token = some t ∧
      (appUpdateToken s (some t)).mem.token = some t ∧
      sessionStatus (appUpdateToken s (some t)) = Status.Authenticated ∧
      memInv (appUpdateToken s (some t)) := by
  intro s u t hauth hinv ht
  have htok : jsTruthy s.mem.token = true :=
    (sessionStatus_authenticated s).1 hauth
  have huser : s.mem.user.isSome = true := by rw [← hinv]; exact htok
  refine ⟨?_, ?_, ?_, ?_, ?_, ?_, ?_, ?_⟩ <;>
    simp [appUpdateUser, appUpdateToken, updateUser, updateToken,
      sessionStatus, memInv, htok, huser, ht, jsTruthy_isSome htok] <;>
    simp [jsTruthy, ht]

/-- Claim C9, witness. -/
theorem C9_update_frame_witness :
    sessionStatus (appUpdateToken (run initState
        [Op.login "a@x.com" "pw"
           (.success ⟨false, some "T", some sampleUser⟩)])
        (some "T2")) = Status.Authenticated :=
  (C9_update_frame_amended (run initState
      [Op.login "a@x.com" "pw"
         (.success ⟨false, some "T", some sampleUser⟩)])
    sampleUser "T2" (by decide) (by decide) (by decide)).2.2.2.2.2.2.1

/-- Claim C10.  `loadStoredAuth` touches the in-memory cells only when the
`'token'` key is present (and truthy) and the `'user'` key is present;
started with exactly one of the two keys in the store, a restore from the
initial memory loads neither value — token and user stay absent — and the
restore step never writes the store, so the stray key survives. -/
theorem C10_restore_requires_both :
    (∀ (st : Store) (m : Mem),
        ((loadStoredAuth st m).token ≠ m.token ∨
         (loadStoredAuth st m).user ≠ m.user) →
        jsTruthy st.token = true ∧ st.user.isSome = true) ∧
    (∀ st : Store, st.token.isSome ≠ st.user.isSome →
        (step { initState with store := st } Op.restore).mem.token = none ∧
        (step { initState with store := st } Op.restore).mem.user = none ∧
        (step { initState with store := st } Op.restore).store = st) := by
  constructor
  · intro st m h
    by_cases hc : (jsTruthy st.token && st.user.isSome) = true
    · simpa [Bool.and_eq_true] using hc
    · rcases h with h | h <;> simp [loadStoredAuth, hc] at h
  · intro st hne
    have hc : (jsTruthy st.token && st.user.isSome) = false := by
      by_cases hc : (jsTruthy st.token && st.user.isSome) = true
      · rw [Bool.and_eq_true] at hc
        exact absurd (by rw [jsTruthy_isSome hc.1, hc.2]) hne
      · simpa using hc
    refine ⟨?_, ?_, rfl⟩ <;>
      simp [step, loadStoredAuth, hc, initState]

/-- Claim C10, witness: a store holding only a stray token. -/
theorem C10_restore_requires_both_witness :
    (step { initState with
        store := { token := some "T", user := none } }
      Op.restore).mem.token = none :=
  (C10_restore_requires_both.2 { token := some "T", user := none }
    (by decide)).1

end GroVSession
